import Mathlib

/-!
Verification of the SEER agentic RTL-refinement orchestration logic.

This file shallowly embeds the control algorithms of `src/mage_rtl`:
  * the Python string primitives the localized-edit action relies on
    (`str.count`, `str.replace`, `str.expandtabs(4)`), on `List Char`;
  * the mismatch-count refinement judge of `rtl_coverage_concise.py`
    (`RTLEditor.replace_sanity_check`, `judge_replace_action_execution`,
    `replace_content_by_matching`);
  * the line/branch-coverage refinement judge of `tb_coverage_concise.py`
    (`TBCoverageEditor`), including the `chat` driver loop;
  * the line-coverage-improvement judge of `rtl_line_coverage_concise.py`
    (`RTLCoverageEditor`);
  * the candidate matrix selection and the per-task run harness of
    `agent.py` (`TopAgent.run_instance`, `TopAgent._run`).

The external simulator and syntax checker are oracles: their outcomes are
passed in as explicit data (`SynCheck`, `SimCheck`, `CovCheck`).  Python
floats for coverage percentages are modelled as rationals; mismatch counts
are natural numbers; `float("inf")` as the initial matrix minimum is
`Option.none`.  File writes (`write_rtl` / `write_tb`) are modelled by the
resulting on-disk content plus the ordered list of writes an action
performed.
-/

namespace Seer

/-! ## Python string primitives -/

/-- Python `str.count` for a nonempty needle: non-overlapping occurrences,
scanning left to right.  The fuel argument (the remaining list length; each
step consumes at least one character and exactly one unit of fuel, so the
zero-fuel arm is never reached from `pyCount`) keeps the recursion
structural, so concrete calls reduce in the kernel. -/
def pyCountAux (needle : List Char) : Nat → List Char → Nat
  | _, [] => 0
  | 0, _ :: _ => 0
  | Nat.succ fuel, c :: rest =>
    if needle.isPrefixOf (c :: rest) then
      1 + pyCountAux needle fuel (rest.drop (needle.length - 1))
    else
      pyCountAux needle fuel rest

/-- Python `str.count`: an empty needle is counted once per gap, so
`"aaa".count("")` is `4`. -/
def pyCount (needle hay : List Char) : Nat :=
  if needle = [] then hay.length + 1 else pyCountAux needle hay.length hay

/-- Python `str.replace` for a nonempty needle: replace each non-overlapping
occurrence, scanning left to right, with the same fuel scheme as
`pyCountAux`. -/
def pyReplaceAux (needle repl : List Char) : Nat → List Char → List Char
  | _, [] => []
  | 0, l => l
  | Nat.succ fuel, c :: rest =>
    if needle.isPrefixOf (c :: rest) then
      repl ++ pyReplaceAux needle repl fuel (rest.drop (needle.length - 1))
    else
      c :: pyReplaceAux needle repl fuel rest

/-- Python `str.replace` with an empty needle inserts the replacement at
every gap: `"ab".replace("", "X")` is `"XaXbX"`. -/
def pyReplaceEmpty (repl : List Char) : List Char → List Char
  | [] => repl
  | c :: rest => repl ++ c :: pyReplaceEmpty repl rest

/-- Python `str.replace`. -/
def pyReplaceL (needle repl hay : List Char) : List Char :=
  if needle = [] then pyReplaceEmpty repl hay
  else pyReplaceAux needle repl hay.length hay

/-- Python `str.expandtabs(4)`: `col` tracks the current column modulo 4; a
tab becomes spaces up to the next multiple of 4, and a newline or carriage
return resets the column. -/
def expandTabsAux : Nat → List Char → List Char
  | _, [] => []
  | col, c :: rest =>
    if c = '\t' then
      List.replicate (4 - col % 4) ' ' ++ expandTabsAux 0 rest
    else if c = '\n' ∨ c = '\r' then
      c :: expandTabsAux 0 rest
    else
      c :: expandTabsAux ((col + 1) % 4) rest

/-- Python `s.expandtabs(4)` on a `String`. -/
def expandtabs4 (s : String) : String :=
  String.mk (expandTabsAux 0 s.toList)

/-- Python `hay.count(needle)` on `String`s. -/
def pyCountS (needle hay : String) : Nat :=
  pyCount needle.toList hay.toList

/-- Python `hay.replace(needle, repl)` on `String`s. -/
def pyReplaceS (needle repl hay : String) : String :=
  String.mk (pyReplaceL needle.toList repl.toList hay.toList)

/-- Outcome of the external `check_syntax` call (sim_reviewer.py): a pass
flag and the checker's output text. -/
structure SynCheck where
  is_syntax_pass : Bool
  syntax_output : String
deriving DecidableEq

/-- Outcome of `SimReviewer.review()`: sim pass flag, mismatch count and the
simulation log. -/
structure SimCheck where
  is_sim_pass : Bool
  sim_mismatch_cnt : Nat
  sim_output : String
deriving DecidableEq

/-- Outcome of `SimReviewer.coverage_review_tb()`: sim pass flag, line and
branch coverage percentages, and the simulation log. -/
structure CovCheck where
  is_sim_pass : Bool
  line_coverage : ℚ
  branch_coverage : ℚ
  sim_output : String
deriving DecidableEq

end Seer

namespace Seer.RTLEd

/-! ## rtl_coverage_concise.py — RTLEditor (mismatch-count refinement) -/

/-- The dict returned by `RTLEditor.replace_sanity_check`. -/
structure Sanity where
  is_syntax_pass : Bool
  is_sim_pass : Bool
  error_msg : String
  sim_mismatch_cnt : Nat
deriving DecidableEq

/-- `RTLEditor.replace_sanity_check`: on syntax failure returns the verdict
with both flags false, the syntax error text and `sim_mismatch_cnt = 0`;
otherwise forwards the simulation outcome. -/
def replace_sanity_check (syn : SynCheck) (sim : SimCheck) : Sanity :=
  if syn.is_syntax_pass = false then
    { is_syntax_pass := false
      is_sim_pass := false
      error_msg := syn.syntax_output
      sim_mismatch_cnt := 0 }
  else
    { is_syntax_pass := true
      is_sim_pass := sim.is_sim_pass
      error_msg := if sim.is_sim_pass then "" else sim.sim_output
      sim_mismatch_cnt := sim.sim_mismatch_cnt }

/-- The mutable editor state `judge_replace_action_execution` touches:
`self.last_mismatch_cnt`, `self.is_done`, and the on-disk `rtl.sv`. -/
structure EditorState where
  last_mismatch_cnt : Option Nat
  is_done : Bool
  rtl : String
deriving DecidableEq

/-- Result of one `replace_content_by_matching` action: the returned dict's
fields that are always present, the sanity-check dict when one was run
(absent on the unique-match early returns), the state after the action, and
the `write_rtl` calls the action performed, in order. -/
structure ActionRet where
  is_action_executed : Bool
  error_msg : String
  sanity : Option Sanity
  st : EditorState
  writes : List String
deriving DecidableEq

/-- `RTLEditor.judge_replace_action_execution`: reject on syntax failure, on
a mismatch count above `last_mismatch_cnt`, and on the degenerate
`mismatch == 0` with a failed simulation; otherwise accept, store the new
mismatch count and set `is_done` when it reached zero.  Every reject path
writes `old_file_content` back to disk. -/
def judge_replace_action_execution (last : Option Nat) (d : Bool)
    (old_content new_content action_name : String)
    (old_file_content written : String)
    (syn : SynCheck) (sim : SimCheck) : ActionRet :=
  let sc := replace_sanity_check syn sim
  if sc.is_syntax_pass = false then
    { is_action_executed := false
      error_msg := sc.error_msg ++ "Syntax check failed. " ++ action_name ++
        " not executed." ++ "old_content: " ++ old_content ++
        ",new_content: " ++ new_content
      sanity := some sc
      st := { last_mismatch_cnt := last, is_done := d, rtl := old_file_content }
      writes := [old_file_content] }
  else
    let regress : Bool := match last with
      | some m => decide (m < sc.sim_mismatch_cnt)
      | none => false
    if regress then
      { is_action_executed := false
        error_msg := sc.error_msg ++ "Mismatch_cnt increased after the replacement. " ++
          action_name ++ " not executed."
        sanity := some sc
        st := { last_mismatch_cnt := last, is_done := d, rtl := old_file_content }
        writes := [old_file_content] }
    else if sc.sim_mismatch_cnt = 0 ∧ sc.is_sim_pass = false then
      { is_action_executed := false
        error_msg := sc.error_msg ++ "Mismatch_cnt is 0 but sim failed. " ++
          action_name ++ " not executed."
        sanity := some sc
        st := { last_mismatch_cnt := last, is_done := d, rtl := old_file_content }
        writes := [old_file_content] }
    else
      { is_action_executed := true
        error_msg := sc.error_msg
        sanity := some sc
        st := { last_mismatch_cnt := some sc.sim_mismatch_cnt
                is_done := d || decide (sc.sim_mismatch_cnt = 0)
                rtl := written }
        writes := [] }

/-- `RTLEditor.replace_content_by_matching`: expand tabs, require the old
content to occur exactly once, write the replacement and run the judge.
Zero or multiple occurrences return early without touching the disk. -/
def replace_content_by_matching (last : Option Nat) (d : Bool) (rtl : String)
    (old_content new_content : String)
    (syn : SynCheck) (sim : SimCheck) : ActionRet :=
  let old_file_content := expandtabs4 rtl
  let oldc := expandtabs4 old_content
  let newc := expandtabs4 new_content
  let occurrences := pyCountS oldc old_file_content
  if occurrences = 0 then
    { is_action_executed := false
      error_msg := "Cannot find old_content in current RTL. replace_content_by_matching not executed."
      sanity := none
      st := { last_mismatch_cnt := last, is_done := d, rtl := rtl }
      writes := [] }
  else if occurrences > 1 then
    { is_action_executed := false
      error_msg := "Find multiple old_content in current RTL. replace_content_by_matching not executed."
      sanity := none
      st := { last_mismatch_cnt := last, is_done := d, rtl := rtl }
      writes := [] }
  else
    let new_file_content := pyReplaceS oldc newc old_file_content
    let j := judge_replace_action_execution last d oldc newc
      "replace_content_by_matching" old_file_content new_file_content syn sim
    { j with writes := new_file_content :: j.writes }

end Seer.RTLEd

namespace Seer.TBEd

/-! ## tb_coverage_concise.py — TBCoverageEditor (line/branch coverage) -/

/-- The dict returned by `TBCoverageEditor.replace_sanity_check` (the same
shape is returned by `RTLCoverageEditor.replace_sanity_check` in
rtl_line_coverage_concise.py, whose body is textually identical). -/
structure Sanity where
  is_syntax_pass : Bool
  is_sim_pass : Bool
  error_msg : String
  line_coverage : ℚ
  branch_coverage : ℚ
deriving DecidableEq

/-- `TBCoverageEditor.replace_sanity_check`: on syntax failure returns both
flags false, the syntax error text and `0.0` for both coverages; otherwise
forwards the coverage review outcome. -/
def replace_sanity_check (syn : SynCheck) (cov : CovCheck) : Sanity :=
  if syn.is_syntax_pass = false then
    { is_syntax_pass := false
      is_sim_pass := false
      error_msg := syn.syntax_output
      line_coverage := 0
      branch_coverage := 0 }
  else
    { is_syntax_pass := true
      is_sim_pass := cov.is_sim_pass
      error_msg := if cov.is_sim_pass then "" else cov.sim_output
      line_coverage := cov.line_coverage
      branch_coverage := cov.branch_coverage }

/-- Python `abs(x - 100.0) < 0.001`, the coverage goal test. -/
def goal_met (x : ℚ) : Bool :=
  decide (|x - 100| < 1 / 1000)

/-- The mutable editor state: `self.last_line_coverage`,
`self.last_branch_coverage`, `self.is_done`, and the on-disk `tb.sv`. -/
structure TBState where
  last_line_coverage : Option ℚ
  last_branch_coverage : Option ℚ
  is_done : Bool
  tb : String
deriving DecidableEq

/-- Result of one `enhance_testbench` action: the returned dict's fields
that are always present, the sanity-check dict when one was run, the state
after the action and the `write_tb` calls performed, in order. -/
structure ActionRet where
  is_action_executed : Bool
  error_msg : String
  line_coverage : ℚ
  branch_coverage : ℚ
  sanity : Option Sanity
  st : TBState
  writes : List String
deriving DecidableEq

/-- `TBCoverageEditor.judge_replace_action_execution`: reject on syntax
failure and on a failed simulation; accept only when line and branch
coverage are each at least their tracked previous values (a `None` previous
value counts as improved), storing the new coverages and setting `is_done`
when both reach the 100% goal.  Every reject path writes
`old_file_content` back to disk. -/
def judge_replace_action_execution (ll lb : Option ℚ) (d : Bool)
    (old_content new_content action_name : String)
    (old_file_content written : String)
    (syn : SynCheck) (cov : CovCheck) : ActionRet :=
  let sc := replace_sanity_check syn cov
  if sc.is_syntax_pass = false then
    { is_action_executed := false
      error_msg := sc.error_msg ++ "Syntax check failed. " ++ action_name ++
        " not executed." ++ "old_content: " ++ old_content ++
        ",new_content: " ++ new_content
      line_coverage := sc.line_coverage
      branch_coverage := sc.branch_coverage
      sanity := some sc
      st := { last_line_coverage := ll, last_branch_coverage := lb,
              is_done := d, tb := old_file_content }
      writes := [old_file_content] }
  else if sc.is_sim_pass = false then
    { is_action_executed := false
      error_msg := sc.error_msg
      line_coverage := sc.line_coverage
      branch_coverage := sc.branch_coverage
      sanity := some sc
      st := { last_line_coverage := ll, last_branch_coverage := lb,
              is_done := d, tb := old_file_content }
      writes := [old_file_content] }
  else
    let line_improved : Bool := match ll with
      | none => true
      | some l => decide (sc.line_coverage ≥ l)
    let branch_improved : Bool := match lb with
      | none => true
      | some b => decide (sc.branch_coverage ≥ b)
    if line_improved && branch_improved then
      { is_action_executed := true
        error_msg := sc.error_msg
        line_coverage := sc.line_coverage
        branch_coverage := sc.branch_coverage
        sanity := some sc
        st := { last_line_coverage := some sc.line_coverage
                last_branch_coverage := some sc.branch_coverage
                is_done := d || (goal_met sc.line_coverage && goal_met sc.branch_coverage)
                tb := written }
        writes := [] }
    else
      { is_action_executed := false
        error_msg := "not both line and branch coverage improved. Action not executed."
        line_coverage := sc.line_coverage
        branch_coverage := sc.branch_coverage
        sanity := some sc
        st := { last_line_coverage := ll, last_branch_coverage := lb,
                is_done := d, tb := old_file_content }
        writes := [old_file_content] }

/-- `TBCoverageEditor.enhance_testbench`: expand tabs, require the old
content to occur exactly once, write the replacement and run the judge.
Zero or multiple occurrences return early without touching the disk; their
coverage fields fall back to `last or 0.0`. -/
def enhance_testbench (ll lb : Option ℚ) (d : Bool) (tb : String)
    (old_content new_content : String)
    (syn : SynCheck) (cov : CovCheck) : ActionRet :=
  let old_file_content := expandtabs4 tb
  let oldc := expandtabs4 old_content
  let newc := expandtabs4 new_content
  let occurrences := pyCountS oldc old_file_content
  if occurrences = 0 then
    { is_action_executed := false
      error_msg := "Cannot find old_content in current testbench. enhance_testbench not executed."
      line_coverage := ll.getD 0
      branch_coverage := lb.getD 0
      sanity := none
      st := { last_line_coverage := ll, last_branch_coverage := lb,
              is_done := d, tb := tb }
      writes := [] }
  else if occurrences > 1 then
    { is_action_executed := false
      error_msg := "Find multiple old_content in current testbench. enhance_testbench not executed."
      line_coverage := ll.getD 0
      branch_coverage := lb.getD 0
      sanity := none
      st := { last_line_coverage := ll, last_branch_coverage := lb,
              is_done := d, tb := tb }
      writes := [] }
  else
    let new_file_content := pyReplaceS oldc newc old_file_content
    let j := judge_replace_action_execution ll lb d oldc newc
      "enhance_testbench" old_file_content new_file_content syn cov
    { j with writes := new_file_content :: j.writes }

/-- One round of the `TBCoverageEditor.chat` loop: the LLM-proposed edit
and the oracle outcomes for the evaluation that follows it. -/
structure TBRound where
  old_content : String
  new_content : String
  syn : SynCheck
  cov : CovCheck
deriving DecidableEq

/-- The `for i in range(self.max_trials)` loop of `TBCoverageEditor.chat`:
run the action for each round in turn and stop as soon as `is_done` is set
(checked right after the action runs, as in the source). -/
def tb_loop : List TBRound → TBState → TBState
  | [], s => s
  | r :: rs, s =>
    let a := enhance_testbench s.last_line_coverage s.last_branch_coverage
      s.is_done s.tb r.old_content r.new_content r.syn r.cov
    if a.st.is_done then a.st else tb_loop rs a.st

/-- Return value of `TBCoverageEditor.chat`. -/
structure ChatRet where
  is_pass : Bool
  tb : String
deriving DecidableEq

/-- `TBCoverageEditor.chat` for a fresh editor (`max_trials = 5`): write the
artifacts, take the initial coverage; return success at once if both
coverages are already at 100%, failure at once on an initial syntax or
simulation failure; otherwise run the editing loop and finally re-evaluate,
reporting success exactly when the final line coverage is 100% (within
0.001), whatever the branch coverage. -/
def chat (testbench : String) (init_syn : SynCheck) (init_cov : CovCheck)
    (rounds : List TBRound)
    (final_syn : SynCheck) (final_cov : CovCheck) : ChatRet :=
  let initial_check := replace_sanity_check init_syn init_cov
  if goal_met initial_check.line_coverage && goal_met initial_check.branch_coverage then
    { is_pass := true, tb := testbench }
  else if initial_check.is_syntax_pass = false then
    { is_pass := false, tb := testbench }
  else if initial_check.is_sim_pass = false then
    { is_pass := false, tb := testbench }
  else
    let s0 : TBState :=
      { last_line_coverage := some initial_check.line_coverage
        last_branch_coverage := some initial_check.branch_coverage
        is_done := false
        tb := testbench }
    let sF := tb_loop (rounds.take 5) s0
    let final_check := replace_sanity_check final_syn final_cov
    { is_pass := goal_met final_check.line_coverage, tb := sF.tb }

end Seer.TBEd

namespace Seer.RTLCov

/-! ## rtl_line_coverage_concise.py — RTLCoverageEditor (line coverage) -/

/-- The mutable editor state: `self.last_coverage`, `self.is_done`, and the
on-disk `rtl.sv`. -/
structure CovState where
  last_coverage : Option ℚ
  is_done : Bool
  rtl : String
deriving DecidableEq

/-- Result of one `remove_content_redundancy` judge call. -/
structure ActionRet where
  is_action_executed : Bool
  error_msg : String
  sanity : TBEd.Sanity
  st : CovState
  writes : List String
deriving DecidableEq

/-- `RTLCoverageEditor.judge_replace_action_execution`: reject on syntax
failure, on a failed simulation, and whenever the new line coverage is not a
strict improvement over a tracked previous value (`coverage <=
self.last_coverage`); otherwise accept, store the new coverage and set
`is_done` at the 100% goal.  Its `replace_sanity_check` is textually the
one embedded as `TBEd.replace_sanity_check`. -/
def judge_replace_action_execution (last : Option ℚ) (d : Bool)
    (old_content new_content action_name : String)
    (old_file_content written : String)
    (syn : SynCheck) (cov : CovCheck) : ActionRet :=
  let sc := TBEd.replace_sanity_check syn cov
  if sc.is_syntax_pass = false then
    { is_action_executed := false
      error_msg := sc.error_msg ++ "Syntax check failed. " ++ action_name ++
        " not executed." ++ "old_content: " ++ old_content ++
        ",new_content: " ++ new_content
      sanity := sc
      st := { last_coverage := last, is_done := d, rtl := old_file_content }
      writes := [old_file_content] }
  else if sc.is_sim_pass = false then
    { is_action_executed := false
      error_msg := sc.error_msg
      sanity := sc
      st := { last_coverage := last, is_done := d, rtl := old_file_content }
      writes := [old_file_content] }
  else
    let not_improved : Bool := match last with
      | none => false
      | some c => decide (sc.line_coverage ≤ c)
    if not_improved then
      { is_action_executed := false
        error_msg := sc.error_msg ++ "Coverage not improved. Action not executed."
        sanity := sc
        st := { last_coverage := last, is_done := d, rtl := old_file_content }
        writes := [old_file_content] }
    else
      { is_action_executed := true
        error_msg := sc.error_msg
        sanity := sc
        st := { last_coverage := some sc.line_coverage
                is_done := d || TBEd.goal_met sc.line_coverage
                rtl := written }
        writes := [] }

end Seer.RTLCov

namespace Seer.Agent

/-! ## agent.py — TopAgent (matrix selection and the per-task run) -/

/-- One update of the running best in `TopAgent.run_instance`: the cell is
`(rtl index, tb index, mismatch count)`; the accumulator's `none` is the
initial `min_mismatch = float("inf")`, and the strict `<` keeps the first
encountered minimum. -/
def selectStep (acc : Nat × Nat × Option Nat) (cell : Nat × Nat × Nat) :
    Nat × Nat × Option Nat :=
  match acc.2.2 with
  | none => (cell.1, cell.2.1, some cell.2.2)
  | some m => if cell.2.2 < m then (cell.1, cell.2.1, some cell.2.2) else acc

/-- The evaluation cells of the nested `for i, rtl / for j, testbench`
loops, in the loop's rtl-major (row-major) order. -/
def cells (matrix : List (List Nat)) : List (Nat × Nat × Nat) :=
  (matrix.enum.map (fun p => p.2.enum.map (fun q => (p.1, q.1, q.2)))).flatten

/-- The selection performed by `TopAgent.run_instance` over the mismatch
matrix: fold the update over all cells in row-major order starting from
`best_rtl_idx = best_tb_idx = 0`, `min_mismatch = inf`. -/
def run_instance_select (matrix : List (List Nat)) : Nat × Nat × Option Nat :=
  (cells matrix).foldl selectStep (0, 0, none)

/-- The RTL candidate generation loop of `TopAgent.run_instance`: a
candidate is `(is_syntax_pass, rtl_code)` and only syntax-passing
candidates are appended to `rtl_codes`. -/
def gen_rtl_codes (cands : List (Bool × String)) : List String :=
  (cands.filter (fun c => c.1)).map (fun c => c.2)

/-- The (rtl, testbench) pairings `TopAgent.run_instance` simulates: every
kept RTL candidate with every testbench, rtl-major. -/
def eval_pairs (rtls tbs : List String) : List (String × String) :=
  rtls.flatMap (fun r => tbs.map (fun t => (r, t)))

/-- The pairings simulated for a given candidate-generation outcome. -/
def run_instance_pairs (cands : List (Bool × String)) (tbs : List String) :
    List (String × String) :=
  eval_pairs (gen_rtl_codes cands) tbs

/-- Outcome of `TopAgent._run`: the returned `(is_pass, rtl_code)` and
whether `properly_finished.tag` exists afterwards. -/
structure RunRet where
  ret : Bool × String
  tag : Bool
deriving DecidableEq

/-- `TopAgent._run`: any pre-existing `properly_finished.tag` is removed
first (so `tag0`, whether the marker existed before the run, never shows in
the outcome); the body — the whole `try` block through `run_instance` — is
an `Except`, and an exception is caught and turned into the
`(False, "Exception: ...")` result with no marker written, while a clean
completion writes the marker and returns the body's result. -/
def agent_run (_tag0 : Bool) (body : Except String (Bool × String)) : RunRet :=
  match body with
  | Except.ok r => { ret := r, tag := true }
  | Except.error e => { ret := (false, "Exception: " ++ e), tag := false }

end Seer.Agent

namespace Seer

/-! ## Helper lemmas -/

/-- Expanding tabs changes nothing in a tab-free character list. -/
theorem expandTabsAux_of_no_tab (l : List Char) :
    ∀ col : Nat, '\t' ∉ l → expandTabsAux col l = l := by
  induction l with
  | nil => intro col _; rfl
  | cons c rest ih =>
    intro col h
    have hc : ¬ c = '\t' := fun hc => h (hc ▸ List.mem_cons_self c rest)
    have hr : '\t' ∉ rest := fun hr => h (List.mem_cons_of_mem c hr)
    by_cases hnl : c = '\n' ∨ c = '\r'
    · simp [expandTabsAux, hc, hnl, ih 0 hr]
    · simp [expandTabsAux, hc, hnl, ih ((col + 1) % 4) hr]

/-- Expanding tabs changes nothing in a tab-free string. -/
theorem expandtabs4_of_no_tab (s : String) (h : '\t' ∉ s.toList) :
    expandtabs4 s = s := by
  unfold expandtabs4
  rw [expandTabsAux_of_no_tab s.toList 0 h]
  cases s
  rfl

/-- Characterization of the mismatch-count judge's accept decision: an edit
is accepted iff syntax passes, the mismatch count does not exceed a tracked
previous count, and it is not the degenerate zero-with-failed-sim case.
Passing simulation is NOT required when the mismatch count is nonzero. -/
theorem rtl_judge_executed_iff (last : Option Nat) (d : Bool)
    (oc nc an f w : String) (syn : SynCheck) (sim : SimCheck) :
    (RTLEd.judge_replace_action_execution last d oc nc an f w syn sim).is_action_executed = true ↔
      syn.is_syntax_pass = true ∧
      (∀ m, last = some m → sim.sim_mismatch_cnt ≤ m) ∧
      ¬ (sim.sim_mismatch_cnt = 0 ∧ sim.is_sim_pass = false) := by
  obtain ⟨sp, so⟩ := syn
  obtain ⟨simp', cnt, sout⟩ := sim
  cases sp
  · simp [RTLEd.judge_replace_action_execution, RTLEd.replace_sanity_check]
  · cases last with
    | none =>
      cases simp' <;> by_cases hc : cnt = 0 <;>
        simp [RTLEd.judge_replace_action_execution, RTLEd.replace_sanity_check, hc]
    | some m =>
      by_cases hm : m < cnt <;> cases simp' <;> by_cases hc : cnt = 0 <;>
        simp [RTLEd.judge_replace_action_execution, RTLEd.replace_sanity_check, hm, hc] <;>
        omega

/-- On acceptance the mismatch-count judge stores the new mismatch count and
keeps the written file. -/
theorem rtl_judge_accept_state (last : Option Nat) (d : Bool)
    (oc nc an f w : String) (syn : SynCheck) (sim : SimCheck)
    (h : (RTLEd.judge_replace_action_execution last d oc nc an f w syn sim).is_action_executed = true) :
    (RTLEd.judge_replace_action_execution last d oc nc an f w syn sim).st.last_mismatch_cnt =
      some sim.sim_mismatch_cnt ∧
    (RTLEd.judge_replace_action_execution last d oc nc an f w syn sim).st.rtl = w := by
  obtain ⟨sp, so⟩ := syn
  obtain ⟨simp', cnt, sout⟩ := sim
  cases sp
  · simp [RTLEd.judge_replace_action_execution, RTLEd.replace_sanity_check] at h
  · cases last with
    | none =>
      cases simp' <;> by_cases hc : cnt = 0 <;>
        simp [RTLEd.judge_replace_action_execution, RTLEd.replace_sanity_check, hc] at h ⊢
    | some m =>
      rcases Nat.lt_or_ge m cnt with hm | hm
      · simp [RTLEd.judge_replace_action_execution, RTLEd.replace_sanity_check, hm] at h
      · have hnot : ¬ (m < cnt) := Nat.not_lt.mpr hm
        cases simp' <;> by_cases hc : cnt = 0 <;>
          simp [RTLEd.judge_replace_action_execution, RTLEd.replace_sanity_check, hnot, hc] at h ⊢

/-- On rejection the mismatch-count judge restores `old_file_content` to
disk and leaves the tracked state unchanged. -/
theorem rtl_judge_reject_state (last : Option Nat) (d : Bool)
    (oc nc an f w : String) (syn : SynCheck) (sim : SimCheck)
    (h : (RTLEd.judge_replace_action_execution last d oc nc an f w syn sim).is_action_executed = false) :
    (RTLEd.judge_replace_action_execution last d oc nc an f w syn sim).st =
      ⟨last, d, f⟩ ∧
    (RTLEd.judge_replace_action_execution last d oc nc an f w syn sim).writes = [f] := by
  obtain ⟨sp, so⟩ := syn
  obtain ⟨simp', cnt, sout⟩ := sim
  cases sp
  · simp [RTLEd.judge_replace_action_execution, RTLEd.replace_sanity_check]
  · cases last with
    | none =>
      cases simp' <;> by_cases hc : cnt = 0 <;>
        simp [RTLEd.judge_replace_action_execution, RTLEd.replace_sanity_check, hc] at h ⊢
    | some m =>
      rcases Nat.lt_or_ge m cnt with hm | hm
      · simp [RTLEd.judge_replace_action_execution, RTLEd.replace_sanity_check, hm] at h ⊢
      · have hnot : ¬ (m < cnt) := Nat.not_lt.mpr hm
        cases simp' <;> by_cases hc : cnt = 0 <;>
          simp [RTLEd.judge_replace_action_execution, RTLEd.replace_sanity_check, hnot, hc] at h ⊢

end Seer

namespace Seer

/-- Characterization of the line/branch-coverage judge's accept decision: an
edit is accepted iff syntax passes, the simulation passes, and both line and
branch coverage are at least their tracked previous values. -/
theorem tb_judge_executed_iff (ll lb : Option ℚ) (d : Bool)
    (oc nc an f w : String) (syn : SynCheck) (cov : CovCheck) :
    (TBEd.judge_replace_action_execution ll lb d oc nc an f w syn cov).is_action_executed = true ↔
      syn.is_syntax_pass = true ∧ cov.is_sim_pass = true ∧
      (∀ l, ll = some l → l ≤ cov.line_coverage) ∧
      (∀ b, lb = some b → b ≤ cov.branch_coverage) := by
  obtain ⟨sp, so⟩ := syn
  obtain ⟨cp, lc, bc, co⟩ := cov
  cases sp
  · simp [TBEd.judge_replace_action_execution, TBEd.replace_sanity_check]
  · cases cp
    · simp [TBEd.judge_replace_action_execution, TBEd.replace_sanity_check]
    · rcases ll with _ | l
      · rcases lb with _ | b
        · simp [TBEd.judge_replace_action_execution, TBEd.replace_sanity_check]
        · rcases le_or_lt b bc with hb | hb
          · simp [TBEd.judge_replace_action_execution, TBEd.replace_sanity_check, hb]
          · simp [TBEd.judge_replace_action_execution, TBEd.replace_sanity_check, not_le.mpr hb]
      · rcases lb with _ | b
        · rcases le_or_lt l lc with hl | hl
          · simp [TBEd.judge_replace_action_execution, TBEd.replace_sanity_check, hl]
          · simp [TBEd.judge_replace_action_execution, TBEd.replace_sanity_check, not_le.mpr hl]
        · rcases le_or_lt l lc with hl | hl <;> rcases le_or_lt b bc with hb | hb
          · simp [TBEd.judge_replace_action_execution, TBEd.replace_sanity_check, hl, hb]
          · simp [TBEd.judge_replace_action_execution, TBEd.replace_sanity_check, hl, not_le.mpr hb]
          · simp [TBEd.judge_replace_action_execution, TBEd.replace_sanity_check, not_le.mpr hl, hb]
          · simp [TBEd.judge_replace_action_execution, TBEd.replace_sanity_check,
              not_le.mpr hl, not_le.mpr hb]

/-- On acceptance the coverage judge stores both new coverages and keeps the
written file. -/
theorem tb_judge_accept_state (ll lb : Option ℚ) (d : Bool)
    (oc nc an f w : String) (syn : SynCheck) (cov : CovCheck)
    (h : (TBEd.judge_replace_action_execution ll lb d oc nc an f w syn cov).is_action_executed = true) :
    (TBEd.judge_replace_action_execution ll lb d oc nc an f w syn cov).st.last_line_coverage =
      some cov.line_coverage ∧
    (TBEd.judge_replace_action_execution ll lb d oc nc an f w syn cov).st.last_branch_coverage =
      some cov.branch_coverage ∧
    (TBEd.judge_replace_action_execution ll lb d oc nc an f w syn cov).st.tb = w := by
  obtain ⟨sp, so⟩ := syn
  obtain ⟨cp, lc, bc, co⟩ := cov
  cases sp
  · simp [TBEd.judge_replace_action_execution, TBEd.replace_sanity_check] at h
  · cases cp
    · simp [TBEd.judge_replace_action_execution, TBEd.replace_sanity_check] at h
    · rcases hli : (match ll with
        | none => true
        | some l => decide (lc ≥ l)) with _ | _ <;>
      rcases hbi : (match lb with
        | none => true
        | some b => decide (bc ≥ b)) with _ | _ <;>
        simp [TBEd.judge_replace_action_execution, TBEd.replace_sanity_check, hli, hbi] at h ⊢

/-- On rejection the coverage judge restores `old_file_content` to disk and
leaves the tracked state unchanged. -/
theorem tb_judge_reject_state (ll lb : Option ℚ) (d : Bool)
    (oc nc an f w : String) (syn : SynCheck) (cov : CovCheck)
    (h : (TBEd.judge_replace_action_execution ll lb d oc nc an f w syn cov).is_action_executed = false) :
    (TBEd.judge_replace_action_execution ll lb d oc nc an f w syn cov).st =
      ⟨ll, lb, d, f⟩ ∧
    (TBEd.judge_replace_action_execution ll lb d oc nc an f w syn cov).writes = [f] := by
  obtain ⟨sp, so⟩ := syn
  obtain ⟨cp, lc, bc, co⟩ := cov
  cases sp
  · simp [TBEd.judge_replace_action_execution, TBEd.replace_sanity_check]
  · cases cp
    · simp [TBEd.judge_replace_action_execution, TBEd.replace_sanity_check]
    · rcases hli : (match ll with
        | none => true
        | some l => decide (lc ≥ l)) with _ | _ <;>
      rcases hbi : (match lb with
        | none => true
        | some b => decide (bc ≥ b)) with _ | _ <;>
        simp [TBEd.judge_replace_action_execution, TBEd.replace_sanity_check, hli, hbi] at h ⊢

/-- Characterization of the line-coverage judge (rtl_line_coverage_concise):
an edit is accepted iff syntax passes, the simulation passes, and the line
coverage strictly improves a tracked previous value. -/
theorem rtlcov_judge_executed_iff (last : Option ℚ) (d : Bool)
    (oc nc an f w : String) (syn : SynCheck) (cov : CovCheck) :
    (RTLCov.judge_replace_action_execution last d oc nc an f w syn cov).is_action_executed = true ↔
      syn.is_syntax_pass = true ∧ cov.is_sim_pass = true ∧
      (∀ c, last = some c → c < cov.line_coverage) := by
  obtain ⟨sp, so⟩ := syn
  obtain ⟨cp, lc, bc, co⟩ := cov
  cases sp
  · simp [RTLCov.judge_replace_action_execution, TBEd.replace_sanity_check]
  · cases cp
    · simp [RTLCov.judge_replace_action_execution, TBEd.replace_sanity_check]
    · rcases last with _ | c
      · simp [RTLCov.judge_replace_action_execution, TBEd.replace_sanity_check]
      · rcases le_or_lt lc c with hc | hc
        · simp [RTLCov.judge_replace_action_execution, TBEd.replace_sanity_check, hc, not_lt.mpr hc]
        · simp [RTLCov.judge_replace_action_execution, TBEd.replace_sanity_check, not_le.mpr hc, hc]

/-- On acceptance the line-coverage judge stores the new coverage. -/
theorem rtlcov_judge_accept_state (last : Option ℚ) (d : Bool)
    (oc nc an f w : String) (syn : SynCheck) (cov : CovCheck)
    (h : (RTLCov.judge_replace_action_execution last d oc nc an f w syn cov).is_action_executed = true) :
    (RTLCov.judge_replace_action_execution last d oc nc an f w syn cov).st.last_coverage =
      some cov.line_coverage := by
  obtain ⟨sp, so⟩ := syn
  obtain ⟨cp, lc, bc, co⟩ := cov
  cases sp
  · simp [RTLCov.judge_replace_action_execution, TBEd.replace_sanity_check] at h
  · cases cp
    · simp [RTLCov.judge_replace_action_execution, TBEd.replace_sanity_check] at h
    · rcases hni : (match last with
        | none => false
        | some c => decide (lc ≤ c)) with _ | _ <;>
        simp [RTLCov.judge_replace_action_execution, TBEd.replace_sanity_check, hni] at h ⊢

end Seer

namespace Seer

/-! ## Claim theorems -/

/-- Claim C1, counterexample: the mismatch-count judge accepts an edit whose
simulation did NOT fully pass.  With previous count 5, a syntax-passing
evaluation with `is_sim_pass = false` and mismatch count 3 yields
`is_action_executed = true`, contradicting the claim that acceptance
requires the simulation to fully pass. -/
theorem rtl_edit_accepted_with_failing_sim :
    (RTLEd.judge_replace_action_execution (some 5) false "o" "n"
      "replace_content_by_matching" "f" "w"
      { is_syntax_pass := true, syntax_output := "Syntax check passed." }
      { is_sim_pass := false, sim_mismatch_cnt := 3,
        sim_output := "3 mismatches" }).is_action_executed = true ∧
    (RTLEd.judge_replace_action_execution (some 5) false "o" "n"
      "replace_content_by_matching" "f" "w"
      { is_syntax_pass := true, syntax_output := "Syntax check passed." }
      { is_sim_pass := false, sim_mismatch_cnt := 3,
        sim_output := "3 mismatches" }).sanity =
      some { is_syntax_pass := true, is_sim_pass := false,
             error_msg := "3 mismatches", sim_mismatch_cnt := 3 } := by
  decide

/-- Claim C1, amended: in the mismatch-count refinement loop an edit is
accepted iff (1) the syntax check passes, (2) the mismatch count is at most
any tracked previous count, and (3) it is not the case that the mismatch
count is zero while `is_sim_pass` is false; a fully passing simulation is
NOT required when the mismatch count is nonzero.  In every other case
`is_action_executed` stays false. -/
theorem rtl_mismatch_accept_characterization (last : Option Nat) (d : Bool)
    (oc nc an f w : String) (syn : SynCheck) (sim : SimCheck) :
    (RTLEd.judge_replace_action_execution last d oc nc an f w syn sim).is_action_executed = true ↔
      syn.is_syntax_pass = true ∧
      (∀ m, last = some m → sim.sim_mismatch_cnt ≤ m) ∧
      ¬ (sim.sim_mismatch_cnt = 0 ∧ sim.is_sim_pass = false) :=
  rtl_judge_executed_iff last d oc nc an f w syn sim

/-- Claim C2 (confirmed): accepted edits never regress the tracked metric.
The mismatch-count editor stores a count at most the tracked previous one,
and the testbench-coverage editor stores line and branch coverages each at
least their tracked previous values. -/
theorem accepted_rounds_metric_monotone :
    (∀ (m : Nat) (d : Bool) (oc nc an f w : String) (syn : SynCheck) (sim : SimCheck),
      (RTLEd.judge_replace_action_execution (some m) d oc nc an f w syn sim).is_action_executed = true →
      ∃ c, (RTLEd.judge_replace_action_execution (some m) d oc nc an f w syn sim).st.last_mismatch_cnt =
        some c ∧ c ≤ m) ∧
    (∀ (l b : ℚ) (d : Bool) (oc nc an f w : String) (syn : SynCheck) (cov : CovCheck),
      (TBEd.judge_replace_action_execution (some l) (some b) d oc nc an f w syn cov).is_action_executed = true →
      ∃ lc bc,
        (TBEd.judge_replace_action_execution (some l) (some b) d oc nc an f w syn cov).st.last_line_coverage =
          some lc ∧
        (TBEd.judge_replace_action_execution (some l) (some b) d oc nc an f w syn cov).st.last_branch_coverage =
          some bc ∧
        l ≤ lc ∧ b ≤ bc) := by
  constructor
  · intro m d oc nc an f w syn sim h
    obtain ⟨h1, -⟩ := rtl_judge_accept_state (some m) d oc nc an f w syn sim h
    refine ⟨sim.sim_mismatch_cnt, h1, ?_⟩
    exact ((rtl_judge_executed_iff (some m) d oc nc an f w syn sim).mp h).2.1 m rfl
  · intro l b d oc nc an f w syn cov h
    obtain ⟨h1, h2, -⟩ := tb_judge_accept_state (some l) (some b) d oc nc an f w syn cov h
    have hiff := (tb_judge_executed_iff (some l) (some b) d oc nc an f w syn cov).mp h
    exact ⟨cov.line_coverage, cov.branch_coverage, h1, h2,
      hiff.2.2.1 l rfl, hiff.2.2.2 b rfl⟩

/-- Claim C2 witness: concrete accepted rounds, one per editor. -/
theorem accepted_rounds_metric_monotone_witness :
    (∃ c, (RTLEd.judge_replace_action_execution (some 5) false "o" "n" "a" "f" "w"
      ⟨true, "ok"⟩ ⟨true, 3, ""⟩).st.last_mismatch_cnt = some c ∧ c ≤ 5) ∧
    (∃ lc bc, (TBEd.judge_replace_action_execution (some 40) (some 30) false "o" "n" "a" "f" "w"
        ⟨true, "ok"⟩ ⟨true, 80, 60, ""⟩).st.last_line_coverage = some lc ∧
      (TBEd.judge_replace_action_execution (some 40) (some 30) false "o" "n" "a" "f" "w"
        ⟨true, "ok"⟩ ⟨true, 80, 60, ""⟩).st.last_branch_coverage = some bc ∧
      (40 : ℚ) ≤ lc ∧ (30 : ℚ) ≤ bc) :=
  ⟨accepted_rounds_metric_monotone.1 5 false "o" "n" "a" "f" "w" _ _ (by decide),
   accepted_rounds_metric_monotone.2 40 30 false "o" "n" "a" "f" "w" _ _ (by decide)⟩

/-- Claim C6, counterexample: the testbench-coverage variant — one of the
claim's coverage-improvement loops — ACCEPTS an edit whose new metric
exactly equals the prior metric (50%/50% against tracked 50%/50%),
contradicting the claim that such an edit is not accepted under the
coverage variants. -/
theorem tb_equal_coverage_edit_accepted :
    (TBEd.judge_replace_action_execution (some 50) (some 50) false "o" "n" "a" "f" "w"
      ⟨true, "ok"⟩ ⟨true, 50, 50, ""⟩).is_action_executed = true := by
  decide

/-- Claim C6, amended: an edit whose new metric exactly equals the tracked
prior metric is accepted under the mismatch-count variant (`≤`) and under
the testbench line/branch-coverage variant (`≥` on both axes), but NOT
under the RTL line-coverage variant, whose comparison is strict. -/
theorem equal_metric_accept_by_variant :
    (∀ (m : Nat) (d : Bool) (oc nc an f w : String) (syn : SynCheck) (sim : SimCheck),
      syn.is_syntax_pass = true → sim.is_sim_pass = true → sim.sim_mismatch_cnt = m →
      (RTLEd.judge_replace_action_execution (some m) d oc nc an f w syn sim).is_action_executed = true) ∧
    (∀ (l b : ℚ) (d : Bool) (oc nc an f w : String) (syn : SynCheck) (cov : CovCheck),
      syn.is_syntax_pass = true → cov.is_sim_pass = true →
      cov.line_coverage = l → cov.branch_coverage = b →
      (TBEd.judge_replace_action_execution (some l) (some b) d oc nc an f w syn cov).is_action_executed = true) ∧
    (∀ (c : ℚ) (d : Bool) (oc nc an f w : String) (syn : SynCheck) (cov : CovCheck),
      syn.is_syntax_pass = true → cov.is_sim_pass = true → cov.line_coverage = c →
      (RTLCov.judge_replace_action_execution (some c) d oc nc an f w syn cov).is_action_executed = false) := by
  refine ⟨?_, ?_, ?_⟩
  · intro m d oc nc an f w syn sim h1 h2 h3
    rw [rtl_judge_executed_iff]
    refine ⟨h1, ?_, ?_⟩
    · intro m' hm'
      obtain rfl : m = m' := Option.some.inj hm'
      exact Nat.le_of_eq h3
    · rintro ⟨-, hp⟩
      rw [h2] at hp
      exact Bool.noConfusion hp
  · intro l b d oc nc an f w syn cov h1 h2 h3 h4
    rw [tb_judge_executed_iff]
    refine ⟨h1, h2, ?_, ?_⟩
    · intro l' hl'
      obtain rfl : l = l' := Option.some.inj hl'
      exact le_of_eq h3.symm
    · intro b' hb'
      obtain rfl : b = b' := Option.some.inj hb'
      exact le_of_eq h4.symm
  · intro c d oc nc an f w syn cov h1 h2 h3
    cases hE : (RTLCov.judge_replace_action_execution (some c) d oc nc an f w syn cov).is_action_executed
    · rfl
    · exfalso
      have hx := (rtlcov_judge_executed_iff (some c) d oc nc an f w syn cov).mp hE
      have hc := hx.2.2 c rfl
      rw [h3] at hc
      exact lt_irrefl c hc

/-- Claim C6 witness: a concrete equal-metric round for each of the three
loop variants. -/
theorem equal_metric_accept_by_variant_witness :
    (RTLEd.judge_replace_action_execution (some 4) false "o" "n" "a" "f" "w"
      ⟨true, "ok"⟩ ⟨true, 4, ""⟩).is_action_executed = true ∧
    (TBEd.judge_replace_action_execution (some 70) (some 60) false "o" "n" "a" "f" "w"
      ⟨true, "ok"⟩ ⟨true, 70, 60, ""⟩).is_action_executed = true ∧
    (RTLCov.judge_replace_action_execution (some 70) false "o" "n" "a" "f" "w"
      ⟨true, "ok"⟩ ⟨true, 70, 60, ""⟩).is_action_executed = false :=
  ⟨equal_metric_accept_by_variant.1 4 false "o" "n" "a" "f" "w" _ _ rfl rfl rfl,
   equal_metric_accept_by_variant.2.1 70 60 false "o" "n" "a" "f" "w" _ _ rfl rfl rfl rfl,
   equal_metric_accept_by_variant.2.2 70 false "o" "n" "a" "f" "w" _ _ rfl rfl rfl⟩

/-- Claim C7, counterexample: on a syntax failure the mismatch-count
sanity check defaults the metric to 0 — the BEST possible mismatch count,
not a sentinel high (worst-possible) one: an achievable verdict with count
7 is strictly worse than the syntax-failure default. -/
theorem syntax_fail_mismatch_default_is_zero :
    (RTLEd.replace_sanity_check ⟨false, "syntax error"⟩ ⟨true, 7, ""⟩).sim_mismatch_cnt = 0 ∧
    (RTLEd.replace_sanity_check ⟨true, "ok"⟩ ⟨true, 7, ""⟩).sim_mismatch_cnt = 7 ∧
    ¬ ((RTLEd.replace_sanity_check ⟨true, "ok"⟩ ⟨true, 7, ""⟩).sim_mismatch_cnt ≤
        (RTLEd.replace_sanity_check ⟨false, "syntax error"⟩ ⟨true, 7, ""⟩).sim_mismatch_cnt) := by
  decide

/-- Claim C7, amended: when the syntax check fails, both verdicts carry
`is_syntax_pass = false`, `is_sim_pass = false` and the syntax error text;
the coverage-mode verdict defaults both coverages to the worst-possible
0%, while the mismatch-count verdict defaults the count to 0 (not a
sentinel high value). -/
theorem syntax_fail_verdict_shape (syn : SynCheck) (sim : SimCheck) (cov : CovCheck)
    (h : syn.is_syntax_pass = false) :
    RTLEd.replace_sanity_check syn sim =
      { is_syntax_pass := false, is_sim_pass := false,
        error_msg := syn.syntax_output, sim_mismatch_cnt := 0 } ∧
    TBEd.replace_sanity_check syn cov =
      { is_syntax_pass := false, is_sim_pass := false,
        error_msg := syn.syntax_output, line_coverage := 0, branch_coverage := 0 } := by
  constructor <;> simp [RTLEd.replace_sanity_check, TBEd.replace_sanity_check, h]

/-- Claim C7 witness: the verdict shape at a concrete syntax failure. -/
theorem syntax_fail_verdict_shape_witness :
    RTLEd.replace_sanity_check ⟨false, "type error"⟩ ⟨true, 7, ""⟩ =
      { is_syntax_pass := false, is_sim_pass := false,
        error_msg := "type error", sim_mismatch_cnt := 0 } ∧
    TBEd.replace_sanity_check ⟨false, "type error"⟩ ⟨true, 90, 80, ""⟩ =
      { is_syntax_pass := false, is_sim_pass := false,
        error_msg := "type error", line_coverage := 0, branch_coverage := 0 } :=
  syntax_fail_verdict_shape ⟨false, "type error"⟩ ⟨true, 7, ""⟩ ⟨true, 90, 80, ""⟩ rfl

/-- Claim C9 (confirmed): `TopAgent._run` catches any exception from the
body and turns it into a `(False, "Exception: ...")` result instead of
propagating, and the `properly_finished.tag` marker exists after the run
iff the body completed cleanly — whatever marker existed beforehand (it is
removed at the start). -/
theorem run_catches_exceptions_marker_iff_clean
    (tag0 : Bool) (body : Except String (Bool × String)) :
    ((Agent.agent_run tag0 body).tag = true ↔ ∃ r, body = Except.ok r) ∧
    (∀ e, body = Except.error e →
      (Agent.agent_run tag0 body).ret = (false, "Exception: " ++ e)) ∧
    (∀ r, body = Except.ok r → (Agent.agent_run tag0 body).ret = r) := by
  cases body <;> simp [Agent.agent_run]

end Seer

namespace Seer

/-- Claim C3, counterexample: the unique-match test is run on the
TAB-EXPANDED texts, not verbatim on the current artifact.  With on-disk
RTL `"a\tb"` and old content `"a   b"` (a then three spaces then b), the
old content occurs ZERO times verbatim in the artifact, yet the code
expands both, counts one occurrence, applies the edit (a write happens,
`is_action_executed = true`) and rewrites the disk — contradicting the
claim that zero verbatim occurrences are rejected with
`is_action_executed = false` and an unchanged artifact. -/
theorem verbatim_match_claim_fails_on_tabs :
    pyCountS "a   b" "a\tb" = 0 ∧
    (RTLEd.replace_content_by_matching none false "a\tb" "a   b" "X"
      ⟨true, "ok"⟩ ⟨true, 0, ""⟩).is_action_executed = true ∧
    (RTLEd.replace_content_by_matching none false "a\tb" "a   b" "X"
      ⟨true, "ok"⟩ ⟨true, 0, ""⟩).writes ≠ [] ∧
    ¬ ((RTLEd.replace_content_by_matching none false "a\tb" "a   b" "X"
      ⟨true, "ok"⟩ ⟨true, 0, ""⟩).st.rtl = "a\tb") := by
  decide

/-- Claim C3, amended: a localized edit is applied — some write happens —
iff the tab-expanded (`expandtabs(4)`) old content occurs exactly once in
the tab-expanded current artifact; zero occurrences and multiple
occurrences of the expanded old content are rejected with
`is_action_executed = false`, the matching diagnostic, and an unchanged
on-disk artifact, for both the RTL editor and the testbench editor.  When
it occurs exactly once, the first write is the replaced content. -/
theorem localized_edit_requires_unique_match :
    (∀ (last : Option Nat) (d : Bool) (rtl oc nc : String) (syn : SynCheck) (sim : SimCheck),
      ((RTLEd.replace_content_by_matching last d rtl oc nc syn sim).writes ≠ [] ↔
        pyCountS (expandtabs4 oc) (expandtabs4 rtl) = 1) ∧
      (pyCountS (expandtabs4 oc) (expandtabs4 rtl) = 0 →
        (RTLEd.replace_content_by_matching last d rtl oc nc syn sim).is_action_executed = false ∧
        (RTLEd.replace_content_by_matching last d rtl oc nc syn sim).st.rtl = rtl ∧
        (RTLEd.replace_content_by_matching last d rtl oc nc syn sim).error_msg =
          "Cannot find old_content in current RTL. replace_content_by_matching not executed.") ∧
      (1 < pyCountS (expandtabs4 oc) (expandtabs4 rtl) →
        (RTLEd.replace_content_by_matching last d rtl oc nc syn sim).is_action_executed = false ∧
        (RTLEd.replace_content_by_matching last d rtl oc nc syn sim).st.rtl = rtl ∧
        (RTLEd.replace_content_by_matching last d rtl oc nc syn sim).error_msg =
          "Find multiple old_content in current RTL. replace_content_by_matching not executed.") ∧
      (pyCountS (expandtabs4 oc) (expandtabs4 rtl) = 1 →
        (RTLEd.replace_content_by_matching last d rtl oc nc syn sim).writes.head? =
          some (pyReplaceS (expandtabs4 oc) (expandtabs4 nc) (expandtabs4 rtl)))) ∧
    (∀ (ll lb : Option ℚ) (d : Bool) (tb oc nc : String) (syn : SynCheck) (cov : CovCheck),
      ((TBEd.enhance_testbench ll lb d tb oc nc syn cov).writes ≠ [] ↔
        pyCountS (expandtabs4 oc) (expandtabs4 tb) = 1) ∧
      (pyCountS (expandtabs4 oc) (expandtabs4 tb) = 0 →
        (TBEd.enhance_testbench ll lb d tb oc nc syn cov).is_action_executed = false ∧
        (TBEd.enhance_testbench ll lb d tb oc nc syn cov).st.tb = tb ∧
        (TBEd.enhance_testbench ll lb d tb oc nc syn cov).error_msg =
          "Cannot find old_content in current testbench. enhance_testbench not executed.") ∧
      (1 < pyCountS (expandtabs4 oc) (expandtabs4 tb) →
        (TBEd.enhance_testbench ll lb d tb oc nc syn cov).is_action_executed = false ∧
        (TBEd.enhance_testbench ll lb d tb oc nc syn cov).st.tb = tb ∧
        (TBEd.enhance_testbench ll lb d tb oc nc syn cov).error_msg =
          "Find multiple old_content in current testbench. enhance_testbench not executed.") ∧
      (pyCountS (expandtabs4 oc) (expandtabs4 tb) = 1 →
        (TBEd.enhance_testbench ll lb d tb oc nc syn cov).writes.head? =
          some (pyReplaceS (expandtabs4 oc) (expandtabs4 nc) (expandtabs4 tb)))) := by
  constructor
  · intro last d rtl oc nc syn sim
    by_cases h0 : pyCountS (expandtabs4 oc) (expandtabs4 rtl) = 0
    · simp [RTLEd.replace_content_by_matching, h0]
    · by_cases h1 : pyCountS (expandtabs4 oc) (expandtabs4 rtl) = 1
      · simp [RTLEd.replace_content_by_matching, h0, h1]
      · have h2 : 1 < pyCountS (expandtabs4 oc) (expandtabs4 rtl) := by omega
        simp [RTLEd.replace_content_by_matching, h0, h1, h2]
  · intro ll lb d tb oc nc syn cov
    by_cases h0 : pyCountS (expandtabs4 oc) (expandtabs4 tb) = 0
    · simp [TBEd.enhance_testbench, h0]
    · by_cases h1 : pyCountS (expandtabs4 oc) (expandtabs4 tb) = 1
      · simp [TBEd.enhance_testbench, h0, h1]
      · have h2 : 1 < pyCountS (expandtabs4 oc) (expandtabs4 tb) := by omega
        simp [TBEd.enhance_testbench, h0, h1, h2]

/-- Claim C3 witness: the three literal cases — old content occurring zero
times, exactly once, and three times. -/
theorem localized_edit_requires_unique_match_witness :
    ((RTLEd.replace_content_by_matching none false "abc" "zz" "y"
      ⟨true, "ok"⟩ ⟨true, 0, ""⟩).is_action_executed = false ∧
     (RTLEd.replace_content_by_matching none false "abc" "zz" "y"
      ⟨true, "ok"⟩ ⟨true, 0, ""⟩).st.rtl = "abc") ∧
    (pyCountS "b" "abc" = 1 ∧
     (RTLEd.replace_content_by_matching none false "abc" "b" "x"
      ⟨true, "ok"⟩ ⟨true, 0, ""⟩).writes.head? = some "axc") ∧
    (pyCountS "ab" "ab ab ab" = 3 ∧
     (RTLEd.replace_content_by_matching none false "ab ab ab" "ab" "x"
      ⟨true, "ok"⟩ ⟨true, 0, ""⟩).is_action_executed = false ∧
     (RTLEd.replace_content_by_matching none false "ab ab ab" "ab" "x"
      ⟨true, "ok"⟩ ⟨true, 0, ""⟩).st.rtl = "ab ab ab") := by
  refine ⟨⟨?_, ?_⟩, ⟨by decide, ?_⟩, ⟨by decide, ?_, ?_⟩⟩
  · exact ((localized_edit_requires_unique_match.1 none false "abc" "zz" "y"
      ⟨true, "ok"⟩ ⟨true, 0, ""⟩).2.1 (by decide)).1
  · exact ((localized_edit_requires_unique_match.1 none false "abc" "zz" "y"
      ⟨true, "ok"⟩ ⟨true, 0, ""⟩).2.1 (by decide)).2.1
  · exact (localized_edit_requires_unique_match.1 none false "abc" "b" "x"
      ⟨true, "ok"⟩ ⟨true, 0, ""⟩).2.2.2 (by decide)
  · exact ((localized_edit_requires_unique_match.1 none false "ab ab ab" "ab" "x"
      ⟨true, "ok"⟩ ⟨true, 0, ""⟩).2.2.1 (by decide)).1
  · exact ((localized_edit_requires_unique_match.1 none false "ab ab ab" "ab" "x"
      ⟨true, "ok"⟩ ⟨true, 0, ""⟩).2.2.1 (by decide)).2.1

/-- Claim C4, counterexample: a REJECT transition does NOT restore the
pre-round artifact byte-for-byte.  Starting from the on-disk artifact
`"\ta"` (a tab then `a`), a syntax-failing round's rollback leaves
`"    a"` — the `expandtabs(4)` image — on disk, not the original bytes. -/
theorem reject_rollback_alters_tabbed_artifact :
    (RTLEd.replace_content_by_matching none false "\ta" "a" "b"
      ⟨false, "syntax error"⟩ ⟨true, 0, ""⟩).is_action_executed = false ∧
    (RTLEd.replace_content_by_matching none false "\ta" "a" "b"
      ⟨false, "syntax error"⟩ ⟨true, 0, ""⟩).st.rtl = "    a" ∧
    ¬ ((RTLEd.replace_content_by_matching none false "\ta" "a" "b"
      ⟨false, "syntax error"⟩ ⟨true, 0, ""⟩).st.rtl = "\ta") := by
  decide

/-- Claim C4, amended: after any rejected round the on-disk artifact is
either the pre-round artifact itself (when the unique-match test failed and
nothing was written) or its `expandtabs(4)` image (when the edit had been
applied and was rolled back); in particular it is byte-identical to the
pre-round artifact whenever that artifact contains no tab character. -/
theorem reject_restores_tab_expanded_artifact
    (last : Option Nat) (d : Bool) (rtl oc nc : String)
    (syn : SynCheck) (sim : SimCheck)
    (h : (RTLEd.replace_content_by_matching last d rtl oc nc syn sim).is_action_executed = false) :
    ('\t' ∉ rtl.toList →
      (RTLEd.replace_content_by_matching last d rtl oc nc syn sim).st.rtl = rtl) ∧
    ((RTLEd.replace_content_by_matching last d rtl oc nc syn sim).st.rtl = rtl ∨
     (RTLEd.replace_content_by_matching last d rtl oc nc syn sim).st.rtl = expandtabs4 rtl) := by
  by_cases h0 : pyCountS (expandtabs4 oc) (expandtabs4 rtl) = 0
  · have hr : (RTLEd.replace_content_by_matching last d rtl oc nc syn sim).st.rtl = rtl := by
      simp [RTLEd.replace_content_by_matching, h0]
    exact ⟨fun _ => hr, Or.inl hr⟩
  · by_cases h1 : pyCountS (expandtabs4 oc) (expandtabs4 rtl) = 1
    · have hst : (RTLEd.replace_content_by_matching last d rtl oc nc syn sim).st =
        (RTLEd.judge_replace_action_execution last d (expandtabs4 oc) (expandtabs4 nc)
          "replace_content_by_matching" (expandtabs4 rtl)
          (pyReplaceS (expandtabs4 oc) (expandtabs4 nc) (expandtabs4 rtl)) syn sim).st := by
        simp [RTLEd.replace_content_by_matching, h0, h1]
      have hexec : (RTLEd.judge_replace_action_execution last d (expandtabs4 oc) (expandtabs4 nc)
          "replace_content_by_matching" (expandtabs4 rtl)
          (pyReplaceS (expandtabs4 oc) (expandtabs4 nc) (expandtabs4 rtl)) syn sim).is_action_executed = false := by
        rw [← h]
        simp [RTLEd.replace_content_by_matching, h0, h1]
      obtain ⟨hj, -⟩ := rtl_judge_reject_state last d (expandtabs4 oc) (expandtabs4 nc)
        "replace_content_by_matching" (expandtabs4 rtl)
        (pyReplaceS (expandtabs4 oc) (expandtabs4 nc) (expandtabs4 rtl)) syn sim hexec
      have hr : (RTLEd.replace_content_by_matching last d rtl oc nc syn sim).st.rtl =
          expandtabs4 rtl := by
        rw [hst, hj]
      refine ⟨fun hnt => ?_, Or.inr hr⟩
      rw [hr, expandtabs4_of_no_tab rtl hnt]
    · have h2 : 1 < pyCountS (expandtabs4 oc) (expandtabs4 rtl) := by omega
      have hr : (RTLEd.replace_content_by_matching last d rtl oc nc syn sim).st.rtl = rtl := by
        simp [RTLEd.replace_content_by_matching, h0, h1, h2]
      exact ⟨fun _ => hr, Or.inl hr⟩

/-- Claim C4 witness: a rejected round on a tab-free artifact leaves it
unchanged. -/
theorem reject_restores_tab_expanded_artifact_witness :
    (RTLEd.replace_content_by_matching none false "ab" "zz" "yy"
      ⟨true, "ok"⟩ ⟨true, 0, ""⟩).is_action_executed = false ∧
    (RTLEd.replace_content_by_matching none false "ab" "zz" "yy"
      ⟨true, "ok"⟩ ⟨true, 0, ""⟩).st.rtl = "ab" :=
  ⟨by decide,
   (reject_restores_tab_expanded_artifact none false "ab" "zz" "yy"
      ⟨true, "ok"⟩ ⟨true, 0, ""⟩ (by decide)).1 (by decide)⟩

end Seer

namespace Seer

/-- Fold characterization for the matrix selector: starting from a tracked
best value `m`, either no cell is strictly below `m` and the accumulator
survives, or the fold returns the first cell strictly below `m` that no
earlier cell ties and no later cell beats. -/
theorem foldl_selectStep_some (l : List (Nat × Nat × Nat)) :
    ∀ bi bj m : Nat,
      ((∀ x ∈ l, m ≤ x.2.2) ∧
        List.foldl Agent.selectStep (bi, bj, some m) l = (bi, bj, some m)) ∨
      (∃ pre c post, l = pre ++ c :: post ∧ c.2.2 < m ∧
        (∀ x ∈ pre, c.2.2 < x.2.2) ∧ (∀ x ∈ post, c.2.2 ≤ x.2.2) ∧
        List.foldl Agent.selectStep (bi, bj, some m) l = (c.1, c.2.1, some c.2.2)) := by
  induction l with
  | nil =>
    intro bi bj m
    left
    exact ⟨by simp, rfl⟩
  | cons x xs ih =>
    intro bi bj m
    have hsel : Agent.selectStep (bi, bj, some m) x =
        if x.2.2 < m then (x.1, x.2.1, some x.2.2) else (bi, bj, some m) := rfl
    by_cases hx : x.2.2 < m
    · have hstep : List.foldl Agent.selectStep (bi, bj, some m) (x :: xs) =
          List.foldl Agent.selectStep (x.1, x.2.1, some x.2.2) xs := by
        rw [List.foldl_cons, hsel, if_pos hx]
      rcases ih x.1 x.2.1 x.2.2 with ⟨hall, heq⟩ | ⟨pre, c, post, hsp, hlt, hpre, hpost, heq⟩
      · right
        refine ⟨[], x, xs, by simp, hx, by simp, hall, ?_⟩
        rw [hstep, heq]
      · right
        refine ⟨x :: pre, c, post, by rw [hsp]; rfl, lt_trans hlt hx, ?_, hpost, ?_⟩
        · intro y hy
          rcases List.mem_cons.mp hy with rfl | hy'
          · exact hlt
          · exact hpre y hy'
        · rw [hstep, heq]
    · have hm : m ≤ x.2.2 := le_of_not_lt hx
      have hstep : List.foldl Agent.selectStep (bi, bj, some m) (x :: xs) =
          List.foldl Agent.selectStep (bi, bj, some m) xs := by
        rw [List.foldl_cons, hsel, if_neg hx]
      rcases ih bi bj m with ⟨hall, heq⟩ | ⟨pre, c, post, hsp, hlt, hpre, hpost, heq⟩
      · left
        refine ⟨?_, by rw [hstep, heq]⟩
        intro y hy
        rcases List.mem_cons.mp hy with rfl | hy'
        · exact hm
        · exact hall y hy'
      · right
        refine ⟨x :: pre, c, post, by rw [hsp]; rfl, hlt, ?_, hpost, by rw [hstep, heq]⟩
        intro y hy
        rcases List.mem_cons.mp hy with rfl | hy'
        · exact lt_of_lt_of_le hlt hm
        · exact hpre y hy'

/-- Claim C5 (confirmed): the matrix selector returns a pairing of minimum
mismatch count over all cells in rtl-major (row-major) order, ties broken
by the first-encountered pairing: every cell before the selected one is
strictly worse, every cell at all is no better.  In particular, on the
verdict matrix `[[0, 3], [1, 0]]` it selects `(rtl = 0, tb = 0)` with
mismatch 0, not `(1, 1)`. -/
theorem matrix_selector_first_argmin :
    (∀ (matrix : List (List Nat)) (i j v : Nat),
      Agent.run_instance_select matrix = (i, j, some v) →
      ∃ pre post, Agent.cells matrix = pre ++ (i, j, v) :: post ∧
        (∀ x ∈ pre, v < x.2.2) ∧
        (∀ x ∈ Agent.cells matrix, v ≤ x.2.2)) ∧
    Agent.run_instance_select [[0, 3], [1, 0]] = (0, 0, some 0) := by
  constructor
  · intro matrix i j v h
    unfold Agent.run_instance_select at h
    rcases hc : Agent.cells matrix with _ | ⟨x, xs⟩
    · rw [hc] at h
      simp at h
    · rw [hc] at h
      have hsel : Agent.selectStep (0, 0, none) x = (x.1, x.2.1, some x.2.2) := rfl
      rw [List.foldl_cons, hsel] at h
      rcases foldl_selectStep_some xs x.1 x.2.1 x.2.2 with
        ⟨hall, heq⟩ | ⟨pre, c, post, hsp, hlt, hpre, hpost, heq⟩
      · rw [heq] at h
        obtain ⟨h1, h2, h3⟩ : x.1 = i ∧ x.2.1 = j ∧ x.2.2 = v := by
          simpa [Prod.ext_iff] using h
        subst h1
        subst h2
        subst h3
        refine ⟨[], xs, rfl, by simp, ?_⟩
        intro y hy
        rcases List.mem_cons.mp hy with rfl | hy'
        · exact le_refl _
        · exact hall y hy'
      · rw [heq] at h
        obtain ⟨h1, h2, h3⟩ : c.1 = i ∧ c.2.1 = j ∧ c.2.2 = v := by
          simpa [Prod.ext_iff] using h
        subst h1
        subst h2
        subst h3
        refine ⟨x :: pre, post, by rw [hsp]; rfl, ?_, ?_⟩
        · intro y hy
          rcases List.mem_cons.mp hy with rfl | hy'
          · exact hlt
          · exact hpre y hy'
        · intro y hy
          rw [hsp] at hy
          rcases List.mem_cons.mp hy with rfl | hy'
          · exact le_of_lt hlt
          · rcases List.mem_append.mp hy' with hy2 | hy2
            · exact le_of_lt (hpre y hy2)
            · rcases List.mem_cons.mp hy2 with rfl | hy3
              · exact le_refl _
              · exact hpost y hy3
  · decide

/-- Membership in the selector's evaluation pairs is exactly membership in
the kept RTL list crossed with the testbench list. -/
theorem mem_eval_pairs (rtls tbs : List String) (p : String × String) :
    p ∈ Agent.eval_pairs rtls tbs ↔ p.1 ∈ rtls ∧ p.2 ∈ tbs := by
  unfold Agent.eval_pairs
  constructor
  · intro hp
    obtain ⟨r, hr, hpr⟩ := List.mem_flatMap.mp hp
    obtain ⟨t, ht, hpt⟩ := List.mem_map.mp hpr
    rw [← hpt]
    exact ⟨hr, ht⟩
  · rintro ⟨h1, h2⟩
    exact List.mem_flatMap.mpr ⟨p.1, h1, List.mem_map.mpr ⟨p.2, h2, rfl⟩⟩

/-- A string is a kept RTL candidate iff some syntax-passing candidate
generated it. -/
theorem mem_gen_rtl_codes (cands : List (Bool × String)) (s : String) :
    s ∈ Agent.gen_rtl_codes cands ↔ ∃ c ∈ cands, c.1 = true ∧ c.2 = s := by
  unfold Agent.gen_rtl_codes
  constructor
  · intro hs
    obtain ⟨c, hc, hcs⟩ := List.mem_map.mp hs
    have hc' := List.mem_filter.mp hc
    exact ⟨c, hc'.1, by simpa using hc'.2, hcs⟩
  · rintro ⟨c, hc, h1, h2⟩
    exact List.mem_map.mpr ⟨c, List.mem_filter.mpr ⟨hc, by simpa using h1⟩, h2⟩

/-- The evaluation-pair list has one entry per kept candidate and
testbench. -/
theorem eval_pairs_length (rtls tbs : List String) :
    (Agent.eval_pairs rtls tbs).length = rtls.length * tbs.length := by
  induction rtls with
  | nil => simp [Agent.eval_pairs]
  | cons r rs ih =>
    unfold Agent.eval_pairs at ih ⊢
    rw [List.flatMap_cons, List.length_append, List.length_map, ih, List.length_cons]
    ring

/-- Claim C8 (confirmed): an RTL candidate that fails its own syntax check
is excluded from the evaluation matrix entirely — it is paired with no
testbench and contributes no entry — while every syntax-passing candidate
is kept and paired with every testbench. -/
theorem failing_rtl_candidates_never_paired :
    (∀ (cands : List (Bool × String)) (tbs : List String) (p : String × String),
      p ∈ Agent.run_instance_pairs cands tbs ↔
        p.1 ∈ Agent.gen_rtl_codes cands ∧ p.2 ∈ tbs) ∧
    (∀ (cands : List (Bool × String)) (tbs : List String),
      (Agent.run_instance_pairs cands tbs).length =
        (Agent.gen_rtl_codes cands).length * tbs.length) ∧
    (∀ (cands : List (Bool × String)) (c : Bool × String),
      c ∈ cands → c.1 = true → c.2 ∈ Agent.gen_rtl_codes cands) ∧
    (∀ (cands : List (Bool × String)) (c : Bool × String),
      c ∈ cands → c.1 = false →
      (∀ c2 ∈ cands, c2.1 = true → c2.2 ≠ c.2) →
      ∀ (tbs : List String) (t : String),
        (c.2, t) ∉ Agent.run_instance_pairs cands tbs) := by
  refine ⟨?_, ?_, ?_, ?_⟩
  · intro cands tbs p
    exact mem_eval_pairs (Agent.gen_rtl_codes cands) tbs p
  · intro cands tbs
    exact eval_pairs_length (Agent.gen_rtl_codes cands) tbs
  · intro cands c hc h1
    exact (mem_gen_rtl_codes cands c.2).mpr ⟨c, hc, h1, rfl⟩
  · intro cands c hc h1 hdist tbs t hmem
    have hgen := ((mem_eval_pairs (Agent.gen_rtl_codes cands) tbs _).mp hmem).1
    obtain ⟨c2, hc2, ht, he⟩ := (mem_gen_rtl_codes cands c.2).mp hgen
    exact hdist c2 hc2 ht he

/-- Claim C10 (confirmed): whenever `TBCoverageEditor.chat` reaches its
editing loop (initial coverage not already 100%/100%, initial syntax and
simulation checks passing), the returned success flag is exactly the final
re-evaluation's line-coverage goal test — 100% within 0.001 — regardless
of how the loop ended and regardless of the final branch coverage. -/
theorem tb_chat_success_iff_line_goal
    (testbench : String) (init_syn : SynCheck) (init_cov : CovCheck)
    (rounds : List TBEd.TBRound) (final_syn : SynCheck) (final_cov : CovCheck)
    (h1 : (TBEd.goal_met (TBEd.replace_sanity_check init_syn init_cov).line_coverage &&
      TBEd.goal_met (TBEd.replace_sanity_check init_syn init_cov).branch_coverage) = false)
    (h2 : (TBEd.replace_sanity_check init_syn init_cov).is_syntax_pass = true)
    (h3 : (TBEd.replace_sanity_check init_syn init_cov).is_sim_pass = true) :
    (TBEd.chat testbench init_syn init_cov rounds final_syn final_cov).is_pass =
      TBEd.goal_met (TBEd.replace_sanity_check final_syn final_cov).line_coverage := by
  unfold TBEd.chat
  rw [if_neg (by simp [h1]), if_neg (by simp [h2]), if_neg (by simp [h3])]

/-- Claim C10 witness: an exhausted session whose final line coverage is
100% but whose branch coverage is only 50% is still reported as passing. -/
theorem tb_chat_success_iff_line_goal_witness :
    (TBEd.chat "tb" ⟨true, "ok"⟩ ⟨true, 40, 40, ""⟩ []
      ⟨true, "ok"⟩ ⟨true, 100, 50, ""⟩).is_pass = true := by
  rw [tb_chat_success_iff_line_goal "tb" ⟨true, "ok"⟩ ⟨true, 40, 40, ""⟩ []
    ⟨true, "ok"⟩ ⟨true, 100, 50, ""⟩
    (by norm_num [TBEd.goal_met, TBEd.replace_sanity_check]) (by decide) (by decide)]
  norm_num [TBEd.goal_met, TBEd.replace_sanity_check]

end Seer
